import Mathlib

/-!
# Verification of the pluggable-strategy dispatch core

Shallow embedding of the two Python modules
`parcial2_diseño/ejercicio1_tienda_online_refactorizado.py` (order
notifications) and `parcial2_diseño/ejercicio2_gestor_documentos_refactorizado.py`
(report generation), together with proofs of the specified properties of
the registry / strategy / orchestrator / facade core.

Modelling conventions:
* A Python class-level `Dict[str, type]` registry is modelled as an explicit
  association list `PyDict α` with CPython dict semantics (insertion order
  preserved, last write wins, update-in-place keeps position).  The registry
  is passed explicitly to every operation that reads it.
* `raise` / `try` / `except` are modelled with `Except PyExc`; `PyExc` records
  the Python exception class that was raised and its message.
* `datetime.now()` is modelled by threading an ambient timestamp string.
* `print` side effects are modelled only where the specification makes them
  observable (the per-key failure reports of the notification batch and the
  delivery output of the report pipeline); they become lists of strings.
* Python `float` values are modelled as exact rationals `ℚ`; `str(float)`
  rendering is abstracted by `toString` on `ℚ` (no claim depends on it) and
  `f"{x:.2f}"` is modelled by `format2f` below.
-/

/-! ## Python dict as an insertion-ordered association list -/

/-- A CPython `dict` with `String` keys: an association list whose keys are
kept unique, preserving insertion order. -/
def PyDict (α : Type) : Type := List (String × α)

def PyDict.empty {α : Type} : PyDict α := []

/-- `d[k]` lookup (first — and, with unique keys, only — binding). -/
def PyDict.get? {α : Type} (d : PyDict α) (k : String) : Option α :=
  match d with
  | [] => none
  | (k₁, v₁) :: rest => if k₁ = k then some v₁ else PyDict.get? rest k

/-- `d[k] = v`: CPython semantics — if `k` is present its binding is replaced
in place (position unchanged), otherwise the pair is appended at the end. -/
def PyDict.set {α : Type} (d : PyDict α) (k : String) (v : α) : PyDict α :=
  match d with
  | [] => [(k, v)]
  | (k₁, v₁) :: rest =>
      if k₁ = k then (k₁, v) :: rest else (k₁, v₁) :: PyDict.set rest k v

/-- `list(d.keys())`: keys in insertion order. -/
def PyDict.keys {α : Type} (d : PyDict α) : List String :=
  d.map Prod.fst

/-! ## Python exceptions -/

/-- The Python builtin exception classes this program touches.  In CPython,
`ValueError` and `LookupError` are sibling direct subclasses of `Exception`;
`KeyError` and `IndexError` are the subclasses of `LookupError`. -/
inductive PyExcClass : Type
  | valueError
  | lookupError
  | keyError
  | indexError
  deriving DecidableEq, Repr

/-- Whether a raised exception would be caught by `except LookupError`,
following CPython's builtin exception hierarchy. -/
def PyExcClass.isLookupError : PyExcClass → Bool
  | .lookupError => true
  | .keyError => true
  | .indexError => true
  | .valueError => false

/-- A raised Python exception: its class and its message. -/
structure PyExc : Type where
  cls : PyExcClass
  msg : String
  deriving DecidableEq, Repr

/-! ## Exercise 1 — data model (`Customer`, `Order`, `NotificationRecord`) -/

structure Customer : Type where
  name : String
  email : String
  phone : String
  device_id : String

structure Order : Type where
  order_id : String
  customer : Customer
  total : ℚ

structure NotificationRecord : Type where
  type : String
  recipient : String
  message : String
  timestamp : String

/-- Abstraction of Python's `str(float)` used inside message text (no claim
depends on the exact rendering). -/
def floatStr (q : ℚ) : String := toString q

/-! ## Exercise 1 — strategy variants (`Notifier` and its implementations)

A `Notifier` subclass is stateless, so a registered class and the fresh
instance `cls()` returns are both modelled by the same `Notifier` value.
`send` takes the ambient `datetime.now().isoformat()` timestamp. -/

structure Notifier : Type where
  get_type : String
  send : Order → String → NotificationRecord

def EmailNotifier : Notifier where
  get_type := "email"
  send := fun order now =>
    { type := "email"
      recipient := order.customer.email
      message := "Estimado " ++ order.customer.name ++ ", su pedido #" ++
        order.order_id ++ " por $" ++ floatStr order.total ++
        " ha sido confirmado."
      timestamp := now }

def SMSNotifier : Notifier where
  get_type := "sms"
  send := fun order now =>
    { type := "sms"
      recipient := order.customer.phone
      message := "Pedido #" ++ order.order_id ++ " confirmado. Total: $" ++
        floatStr order.total ++ ". Gracias por su compra!"
      timestamp := now }

def PushNotifier : Notifier where
  get_type := "push"
  send := fun order now =>
    { type := "push"
      recipient := order.customer.device_id
      message := "¡Pedido confirmado! #" ++ order.order_id ++ " - $" ++
        floatStr order.total
      timestamp := now }

def WhatsAppNotifier : Notifier where
  get_type := "whatsapp"
  send := fun order now =>
    { type := "whatsapp"
      recipient := order.customer.phone
      message := "🛒 *Pedido Confirmado*\nPedido: #" ++ order.order_id ++
        "\nTotal: $" ++ floatStr order.total ++
        "\n¡Gracias por tu compra, " ++ order.customer.name ++ "!"
      timestamp := now }

/-! ## Exercise 1 — `NotifierFactory` -/

/-- `NotifierFactory.register`: stores/overwrites the mapping. -/
def NotifierFactory.register (reg : PyDict Notifier) (notifier_type : String)
    (notifier_class : Notifier) : PyDict Notifier :=
  reg.set notifier_type notifier_class

/-- `NotifierFactory.create`: unknown key raises
`ValueError(f"Tipo de notificador desconocido: {notifier_type}")`. -/
def NotifierFactory.create (reg : PyDict Notifier) (notifier_type : String) :
    Except PyExc Notifier :=
  match reg.get? notifier_type with
  | none => .error ⟨.valueError, "Tipo de notificador desconocido: " ++ notifier_type⟩
  | some cls => .ok cls

/-- `NotifierFactory.get_available_types`. -/
def NotifierFactory.get_available_types (reg : PyDict Notifier) : List String :=
  reg.keys

/-- The module-level registrations (lines 191–193 plus the WhatsApp
registration at line 286). -/
def defaultNotifierRegistry : PyDict Notifier :=
  NotifierFactory.register
    (NotifierFactory.register
      (NotifierFactory.register
        (NotifierFactory.register PyDict.empty "email" EmailNotifier)
        "sms" SMSNotifier)
      "push" PushNotifier)
    "whatsapp" WhatsAppNotifier

/-! ## Exercise 1 — orchestrator (`OrderNotificationSystem.process_order`)

The system owns `_notification_history`; `process_order` tries each requested
type, appends the record on success, and on `ValueError` prints a per-key
error line (collected here as `failures`) and continues. -/

structure ProcessResult : Type where
  history : List NotificationRecord
  failures : List String

/-- One iteration of `process_order`'s loop body. -/
def processStep (reg : PyDict Notifier) (order : Order) (now : String)
    (acc : ProcessResult) (notif_type : String) : ProcessResult :=
  match NotifierFactory.create reg notif_type with
  | .ok notifier => { acc with history := acc.history ++ [notifier.send order now] }
  | .error e => { acc with failures := acc.failures ++ ["⚠️  Error: " ++ e.msg] }

/-- `OrderNotificationSystem.process_order`: the `for notif_type in
notification_types` loop over the current history. -/
def process_order (reg : PyDict Notifier) (history : List NotificationRecord)
    (order : Order) (notification_types : List String) (now : String) :
    ProcessResult :=
  notification_types.foldl (processStep reg order now) ⟨history, []⟩

/-! ## Exercise 1 — facade (`NotificationFacade`) -/

/-- The dictionary `send_order_notifications` returns. -/
structure OrderSummary : Type where
  status : String
  order_id : String
  channels_notified : List String
  total_notifications : Nat
  deriving DecidableEq, Repr

structure FacadeResult : Type where
  result : ProcessResult
  summary : OrderSummary

/-- `NotificationFacade.send_order_notifications`: assembles `Customer` and
`Order` from scalars, delegates to `process_order`, and returns the fixed
success summary. -/
def send_order_notifications (reg : PyDict Notifier)
    (history : List NotificationRecord) (order_id customer_name customer_email
    customer_phone device_id : String) (total : ℚ) (channels : List String)
    (now : String) : FacadeResult :=
  let customer : Customer :=
    { name := customer_name, email := customer_email, phone := customer_phone
      device_id := device_id }
  let order : Order :=
    { order_id := order_id, customer := customer, total := total }
  { result := process_order reg history order channels now
    summary :=
      { status := "success"
        order_id := order_id
        channels_notified := channels
        total_notifications := channels.length } }

/-- `NotificationFacade.send_all_channels`: reads
`NotifierFactory.get_available_types()` at call time and delegates. -/
def send_all_channels (reg : PyDict Notifier)
    (history : List NotificationRecord) (order_id name email phone device_id :
    String) (total : ℚ) (now : String) : FacadeResult :=
  let all_channels := NotifierFactory.get_available_types reg
  send_order_notifications reg history order_id name email phone device_id
    total all_channels now

/-! ## Exercise 2 — data model (`ReportRecord` and the `data` dict)

The heterogeneous Python `data: Dict[str, Any]` is modelled as a record of
optional fields; `data.get(key, default)` becomes `Option.getD`. -/

structure ReportRecord : Type where
  report_type : String
  output_format : String
  delivery_method : String
  timestamp : String

structure SaleItem : Type where
  product : String
  amount : ℚ

structure InventoryItem : Type where
  name : String
  category : String
  quantity : Int

structure AuditAction : Type where
  timestamp : String
  user : String
  action : String

structure ReportData : Type where
  sales : Option (List SaleItem) := none
  period : Option String := none
  items : Option (List InventoryItem) := none
  income : Option ℚ := none
  expenses : Option ℚ := none
  actions : Option (List AuditAction) := none

/-- Two-digit zero padding for the cent part of a fixed-point rendering. -/
def padTwo (n : Nat) : String :=
  if n < 10 then "0" ++ toString n else toString n

/-- The number of cents `f"{q:.2f}"` displays: `q * 100` rounded to the
nearest integer with ties to even, as CPython's fixed-point formatting.
Computed on the reduced numerator/denominator representation:
`q * 100 = (q.num * 100) / q.den` with `q.den > 0`, so `f = ⌊q * 100⌋` and
`rem / q.den ∈ [0, 1)` is the fractional part, compared against `1/2`. -/
def roundHalfEvenCents (q : ℚ) : Int :=
  let n := q.num * 100
  let d : Int := (q.den : Int)
  let f := Int.fdiv n d
  let rem := n - f * d
  if 2 * rem < d then f
  else if 2 * rem > d then f + 1
  else if f % 2 = 0 then f else f + 1

/-- Models Python `f"{x:.2f}"` on the exact-rational model of `float`. -/
def format2f (q : ℚ) : String :=
  let cents := roundHalfEvenCents q
  let a := cents.natAbs
  (if cents < 0 then "-" else "") ++ toString (a / 100) ++ "." ++ padTwo (a % 100)

/-! ## Exercise 2 — `ReportGenerator` template method

Variants override only `_build_body` / `get_type` / `get_title`; `generate`,
`_build_header` and `_build_footer` live on the base class and are shared. -/

structure ReportGenerator : Type where
  get_type : String
  get_title : String
  build_body : ReportData → String

/-- Python `"=" * 60`. -/
def eq60 : String := String.mk (List.replicate 60 '=')

/-- Python `"-" * 60`. -/
def dash60 : String := String.mk (List.replicate 60 '-')

/-- `ReportGenerator._build_header` (shared, non-overridable); `now` is the
ambient `datetime.now().strftime("%Y-%m-%d %H:%M:%S")`. -/
def ReportGenerator.build_header (g : ReportGenerator) (now : String) : String :=
  eq60 ++ "\n" ++ "           " ++ g.get_title ++ "\n" ++ eq60 ++ "\n" ++
    "Fecha de generación: " ++ now ++ "\n\n"

/-- `ReportGenerator._build_footer` (shared, non-overridable). -/
def ReportGenerator.build_footer : String := "\n" ++ eq60 ++ "\n"

/-- `ReportGenerator.generate`: the template method
`_build_header() + _build_body(data) + _build_footer()`. -/
def ReportGenerator.generate (g : ReportGenerator) (now : String)
    (data : ReportData) : String :=
  g.build_header now ++ g.build_body data ++ ReportGenerator.build_footer

/-- `sum(item['amount'] for item in sales)`: Python `sum` is a left fold
starting at `0`. -/
def salesTotal (sales : List SaleItem) : ℚ :=
  sales.foldl (fun acc item => acc + item.amount) 0

def SalesReportGenerator : ReportGenerator where
  get_type := "sales"
  get_title := "REPORTE DE VENTAS"
  build_body := fun data =>
    let sales := data.sales.getD []
    let period := data.period.getD "No especificado"
    "Total de ventas: $" ++ format2f (salesTotal sales) ++ "\n" ++
      "Número de transacciones: " ++ toString sales.length ++ "\n" ++
      "Periodo: " ++ period ++ "\n\n" ++
      "Detalle de ventas:\n" ++ dash60 ++ "\n" ++
      String.join (sales.map (fun sale =>
        "  • Producto: " ++ sale.product ++ " - $" ++ format2f sale.amount ++ "\n"))

def InventoryReportGenerator : ReportGenerator where
  get_type := "inventory"
  get_title := "REPORTE DE INVENTARIO"
  build_body := fun data =>
    let items := data.items.getD []
    let total_items := items.foldl (fun acc item => acc + item.quantity) (0 : Int)
    let categories := (items.map InventoryItem.category).dedup.length
    "Total de productos: " ++ toString total_items ++ "\n" ++
      "Categorías: " ++ toString categories ++ "\n\n" ++
      "Inventario actual:\n" ++ dash60 ++ "\n" ++
      String.join (items.map (fun item =>
        "  • " ++ item.name ++ " (" ++ item.category ++ "): " ++
          toString item.quantity ++ " unidades\n"))

def FinancialReportGenerator : ReportGenerator where
  get_type := "financial"
  get_title := "REPORTE FINANCIERO"
  build_body := fun data =>
    let income := data.income.getD 0
    let expenses := data.expenses.getD 0
    let balance := income - expenses
    let body := "Ingresos: $" ++ format2f income ++ "\n" ++
      "Gastos: $" ++ format2f expenses ++ "\n" ++
      "Balance: $" ++ format2f balance ++ "\n"
    if balance > 0 then body ++ "\n✅ Estado: POSITIVO\n"
    else if balance < 0 then body ++ "\n⚠️  Estado: NEGATIVO\n"
    else body ++ "\n➖ Estado: NEUTRO\n"

def AuditReportGenerator : ReportGenerator where
  get_type := "audit"
  get_title := "REPORTE DE AUDITORÍA"
  build_body := fun data =>
    let actions := data.actions.getD []
    "Total de acciones auditadas: " ++ toString actions.length ++ "\n\n" ++
      "Registro de actividades:\n" ++ dash60 ++ "\n" ++
      String.join (actions.map (fun action =>
        "  • [" ++ action.timestamp ++ "] " ++ action.user ++ ": " ++
          action.action ++ "\n"))

/-! ## Exercise 2 — formatters and delivery methods

Formatter `print` lines are not observable in any specified property and are
omitted; delivery `print` lines are the observable delivery side effect and
are returned as a list of strings. -/

structure OutputFormatter : Type where
  get_format_type : String
  get_file_extension : String
  format : String → String

def PDFFormatter : OutputFormatter where
  get_format_type := "pdf"
  get_file_extension := "pdf"
  format := fun content => "[PDF FORMAT]\n" ++ content ++ "\n[END PDF]"

def ExcelFormatter : OutputFormatter where
  get_format_type := "excel"
  get_file_extension := "xlsx"
  format := fun content => "[EXCEL FORMAT]\n" ++ content ++ "\n[END EXCEL]"

def HTMLFormatter : OutputFormatter where
  get_format_type := "html"
  get_file_extension := "html"
  format := fun content => "<html><body><pre>" ++ content ++ "</pre></body></html>"

/-- A delivery method: `deliver content report_type file_extension now` yields
the printed lines (`now` stands for the ambient `datetime.now()` rendering
used by `DownloadDelivery`'s filename). -/
structure DeliveryMethod : Type where
  get_method_type : String
  deliver : String → String → String → String → List String

/-- `EmailDelivery`; its constructor default is `"admin@company.com"`. -/
def EmailDelivery (recipient : String) : DeliveryMethod where
  get_method_type := "email"
  deliver := fun _content report_type file_extension _now =>
    ["📧 Enviando reporte por email...",
     "   Destinatario: " ++ recipient,
     "   Adjunto: report_" ++ report_type ++ "." ++ file_extension]

def DownloadDelivery : DeliveryMethod where
  get_method_type := "download"
  deliver := fun _content report_type file_extension now =>
    ["💾 Reporte disponible para descarga: report_" ++ report_type ++ "_" ++
      now ++ "." ++ file_extension]

/-- `CloudDelivery`; its constructor default is
`"https://cloud.company.com/reports"`. -/
def CloudDelivery (cloud_url : String) : DeliveryMethod where
  get_method_type := "cloud"
  deliver := fun _content report_type file_extension _now =>
    ["☁️  Subiendo reporte a la nube...",
     "   URL: " ++ cloud_url ++ "/" ++ report_type ++ "." ++ file_extension]

/-! ## Exercise 2 — factories and their module-level registrations -/

def ReportGeneratorFactory.register (reg : PyDict ReportGenerator)
    (report_type : String) (generator_class : ReportGenerator) :
    PyDict ReportGenerator :=
  reg.set report_type generator_class

def ReportGeneratorFactory.create (reg : PyDict ReportGenerator)
    (report_type : String) : Except PyExc ReportGenerator :=
  match reg.get? report_type with
  | none => .error ⟨.valueError, "Tipo de reporte desconocido: " ++ report_type⟩
  | some cls => .ok cls

def FormatterFactory.register (reg : PyDict OutputFormatter)
    (format_type : String) (formatter_class : OutputFormatter) :
    PyDict OutputFormatter :=
  reg.set format_type formatter_class

def FormatterFactory.create (reg : PyDict OutputFormatter)
    (format_type : String) : Except PyExc OutputFormatter :=
  match reg.get? format_type with
  | none => .error ⟨.valueError, "Formato desconocido: " ++ format_type⟩
  | some cls => .ok cls

def DeliveryFactory.register (reg : PyDict DeliveryMethod)
    (method_type : String) (method_class : DeliveryMethod) :
    PyDict DeliveryMethod :=
  reg.set method_type method_class

def DeliveryFactory.create (reg : PyDict DeliveryMethod)
    (method_type : String) : Except PyExc DeliveryMethod :=
  match reg.get? method_type with
  | none => .error ⟨.valueError, "Método de entrega desconocido: " ++ method_type⟩
  | some cls => .ok cls

/-- Module-level generator registrations (lines 365–367 plus the audit
registration at line 540). -/
def defaultGeneratorRegistry : PyDict ReportGenerator :=
  ReportGeneratorFactory.register
    (ReportGeneratorFactory.register
      (ReportGeneratorFactory.register
        (ReportGeneratorFactory.register PyDict.empty "sales" SalesReportGenerator)
        "inventory" InventoryReportGenerator)
      "financial" FinancialReportGenerator)
    "audit" AuditReportGenerator

/-- Module-level formatter registrations (lines 369–371). -/
def defaultFormatterRegistry : PyDict OutputFormatter :=
  FormatterFactory.register
    (FormatterFactory.register
      (FormatterFactory.register PyDict.empty "pdf" PDFFormatter)
      "excel" ExcelFormatter)
    "html" HTMLFormatter

/-- Module-level delivery registrations (lines 373–375); `create` calls each
class with no arguments, so the constructor defaults apply. -/
def defaultDeliveryRegistry : PyDict DeliveryMethod :=
  DeliveryFactory.register
    (DeliveryFactory.register
      (DeliveryFactory.register PyDict.empty
        "email" (EmailDelivery "admin@company.com"))
      "download" DownloadDelivery)
    "cloud" (CloudDelivery "https://cloud.company.com/reports")

/-! ## Exercise 2 — orchestrator (`ReportSystem.generate_report`) -/

/-- What a successful `generate_report` call leaves behind: the returned
formatted text, the updated `_reports_generated` history, and the delivery's
printed output. -/
structure ReportOutput : Type where
  formatted_content : String
  history : List ReportRecord
  delivery_output : List String

/-- `ReportSystem.generate_report`: resolves the three strategies (any
`ValueError` from a factory propagates before the history is touched),
generates, formats, delivers, appends one `ReportRecord`, and returns the
formatted content. -/
def generate_report (genReg : PyDict ReportGenerator)
    (fmtReg : PyDict OutputFormatter) (delReg : PyDict DeliveryMethod)
    (history : List ReportRecord) (report_type : String) (data : ReportData)
    (output_format : String) (delivery_method : String) (now : String) :
    Except PyExc ReportOutput :=
  match ReportGeneratorFactory.create genReg report_type with
  | .error e => .error e
  | .ok generator =>
  match FormatterFactory.create fmtReg output_format with
  | .error e => .error e
  | .ok formatter =>
  match DeliveryFactory.create delReg delivery_method with
  | .error e => .error e
  | .ok delivery =>
    let content := generator.generate now data
    let formatted_content := formatter.format content
    let delivery_output :=
      delivery.deliver formatted_content report_type
        formatter.get_file_extension now
    .ok { formatted_content := formatted_content
          history := history ++
            [{ report_type := report_type, output_format := output_format
               delivery_method := delivery_method, timestamp := now }]
          delivery_output := delivery_output }

/-! ## Registry lemmas -/

theorem PyDict.get?_cons {α : Type} (k₁ : String) (v₁ : α)
    (tl : List (String × α)) (k : String) :
    PyDict.get? ((k₁, v₁) :: tl) k =
      if k₁ = k then some v₁ else PyDict.get? tl k := rfl

theorem PyDict.set_cons {α : Type} (k₁ : String) (v₁ : α)
    (tl : List (String × α)) (k : String) (v : α) :
    PyDict.set ((k₁, v₁) :: tl) k v =
      if k₁ = k then (k₁, v) :: tl else (k₁, v₁) :: PyDict.set tl k v := rfl

theorem PyDict.keys_cons {α : Type} (k₁ : String) (v₁ : α)
    (tl : List (String × α)) :
    PyDict.keys ((k₁, v₁) :: tl) = k₁ :: PyDict.keys tl := rfl

theorem PyDict.get?_set_self {α : Type} (d : PyDict α) (k : String) (v : α) :
    (d.set k v).get? k = some v := by
  induction d with
  | nil => simp [PyDict.set, PyDict.get?]
  | cons hd tl ih =>
      obtain ⟨k₁, v₁⟩ := hd
      rw [PyDict.set_cons]
      by_cases h : k₁ = k
      · rw [if_pos h, PyDict.get?_cons, if_pos h]
      · rw [if_neg h, PyDict.get?_cons, if_neg h, ih]

theorem PyDict.get?_set_ne {α : Type} (d : PyDict α) (k k' : String) (v : α)
    (h : k' ≠ k) : (d.set k v).get? k' = d.get? k' := by
  induction d with
  | nil => simp [PyDict.set, PyDict.get?, Ne.symm h]
  | cons hd tl ih =>
      obtain ⟨k₁, v₁⟩ := hd
      rw [PyDict.set_cons]
      by_cases h₁ : k₁ = k
      · subst h₁
        rw [if_pos rfl, PyDict.get?_cons, PyDict.get?_cons,
          if_neg (Ne.symm h), if_neg (Ne.symm h)]
      · rw [if_neg h₁, PyDict.get?_cons, PyDict.get?_cons, ih]

theorem PyDict.mem_keys_iff_isSome {α : Type} (d : PyDict α) (k : String) :
    k ∈ d.keys ↔ (d.get? k).isSome := by
  induction d with
  | nil => simp [PyDict.keys, PyDict.get?]
  | cons hd tl ih =>
      obtain ⟨k₁, v₁⟩ := hd
      rw [PyDict.keys_cons, PyDict.get?_cons]
      by_cases h : k₁ = k
      · subst h
        simp
      · simp [List.mem_cons, Ne.symm h, h, ih]

theorem PyDict.keys_set {α : Type} (d : PyDict α) (k : String) (v : α) :
    (d.set k v).keys = if k ∈ d.keys then d.keys else d.keys ++ [k] := by
  induction d with
  | nil => simp [PyDict.set, PyDict.keys]
  | cons hd tl ih =>
      obtain ⟨k₁, v₁⟩ := hd
      rw [PyDict.set_cons]
      by_cases h : k₁ = k
      · subst h
        simp [PyDict.keys_cons]
      · rw [if_neg h, PyDict.keys_cons, PyDict.keys_cons, ih]
        by_cases hm : k ∈ PyDict.keys tl
        · simp [List.mem_cons, hm, Ne.symm h]
        · simp [List.mem_cons, hm, Ne.symm h]

theorem PyDict.keys_set_of_mem {α : Type} (d : PyDict α) (k : String) (v : α)
    (h : k ∈ d.keys) : (d.set k v).keys = d.keys := by
  simp [PyDict.keys_set, h]

theorem PyDict.keys_set_of_not_mem {α : Type} (d : PyDict α) (k : String)
    (v : α) (h : k ∉ d.keys) : (d.set k v).keys = d.keys ++ [k] := by
  simp [PyDict.keys_set, h]

theorem PyDict.nodup_keys_set {α : Type} (d : PyDict α) (k : String) (v : α)
    (h : d.keys.Nodup) : (d.set k v).keys.Nodup := by
  rw [PyDict.keys_set]
  by_cases hmem : k ∈ d.keys
  · simpa [hmem] using h
  · rw [if_neg hmem]
    refine List.Nodup.append h (List.nodup_singleton k) ?_
    intro a ha hb
    rw [List.mem_singleton] at hb
    subst hb
    exact hmem ha

/-- The keys of a registration sequence, keeping only the first occurrence of
each key, in order — the insertion order a CPython dict ends up with. -/
def firstOccurrences : List String → List String
  | [] => []
  | k :: ks => k :: (firstOccurrences ks).filter (fun x => decide (x ≠ k))

/-- A whole sequence of `NotifierFactory.register` calls. -/
def registerAll (d : PyDict Notifier) (rs : List (String × Notifier)) :
    PyDict Notifier :=
  rs.foldl (fun reg p => NotifierFactory.register reg p.1 p.2) d

theorem PyDict.keys_foldl_set {α : Type} (rs : List (String × α))
    (d : PyDict α) :
    PyDict.keys (rs.foldl (fun reg p => PyDict.set reg p.1 p.2) d) =
      PyDict.keys d ++ (firstOccurrences (rs.map Prod.fst)).filter
        (fun x => decide (x ∉ PyDict.keys d)) := by
  induction rs generalizing d with
  | nil => simp [firstOccurrences]
  | cons p t ih =>
      obtain ⟨k, v⟩ := p
      rw [List.foldl_cons, ih, List.map_cons]
      show PyDict.keys (PyDict.set d k v) ++ _ = _
      rw [firstOccurrences]
      by_cases hk : k ∈ PyDict.keys d
      · rw [PyDict.keys_set_of_mem d k v hk, List.filter_cons]
        have hkd : (decide (k ∉ PyDict.keys d)) = false := by simp [hk]
        rw [hkd]
        simp only [Bool.false_eq_true, if_false, List.filter_filter]
        congr 1
        refine List.filter_congr ?_
        intro x _
        by_cases hxd : x ∈ PyDict.keys d
        · simp [hxd]
        · have hxk : x ≠ k := fun h => hxd (h ▸ hk)
          simp [hxd, hxk]
      · rw [PyDict.keys_set_of_not_mem d k v hk, List.filter_cons]
        have hkd : (decide (k ∉ PyDict.keys d)) = true := by simp [hk]
        rw [hkd]
        simp only [if_true, List.append_assoc, List.singleton_append,
          List.filter_filter]
        congr 2
        refine List.filter_congr ?_
        intro x _
        by_cases hxk : x = k
        · subst hxk
          simp [List.mem_append]
        · by_cases hxd : x ∈ PyDict.keys d <;>
            simp [List.mem_append, hxd, hxk]

theorem PyDict.nodup_keys_foldl_set {α : Type} (rs : List (String × α))
    (d : PyDict α) (hd : (PyDict.keys d).Nodup) :
    (PyDict.keys (rs.foldl (fun reg p => PyDict.set reg p.1 p.2) d)).Nodup := by
  induction rs generalizing d with
  | nil => exact hd
  | cons p t ih =>
      rw [List.foldl_cons]
      exact ih _ (PyDict.nodup_keys_set d p.1 p.2 hd)

/-! ## Orchestrator lemmas -/

/-- What one loop iteration of `process_order` contributes to the history:
the record of a successful send, or nothing on an unknown key. -/
def attempt (reg : PyDict Notifier) (order : Order) (now : String)
    (k : String) : Option NotificationRecord :=
  match NotifierFactory.create reg k with
  | .ok notifier => some (notifier.send order now)
  | .error _ => none

theorem foldl_processStep_spec (reg : PyDict Notifier) (order : Order)
    (now : String) (keys : List String) (acc : ProcessResult) :
    keys.foldl (processStep reg order now) acc =
      { history := acc.history ++ keys.filterMap (attempt reg order now)
        failures := acc.failures ++
          (keys.filter (fun k => (PyDict.get? reg k).isNone)).map
            (fun k => "⚠️  Error: " ++
              ("Tipo de notificador desconocido: " ++ k)) } := by
  induction keys generalizing acc with
  | nil => simp
  | cons k t ih =>
      rw [List.foldl_cons, ih]
      unfold processStep
      cases hc : PyDict.get? reg k with
      | none =>
          simp [NotifierFactory.create, hc, attempt, List.filterMap_cons,
            List.filter_cons]
      | some n =>
          simp [NotifierFactory.create, hc, attempt, List.filterMap_cons,
            List.filter_cons]

theorem process_order_spec (reg : PyDict Notifier)
    (history : List NotificationRecord) (order : Order) (keys : List String)
    (now : String) :
    process_order reg history order keys now =
      { history := history ++ keys.filterMap (attempt reg order now)
        failures := (keys.filter (fun k => (PyDict.get? reg k).isNone)).map
          (fun k => "⚠️  Error: " ++
            ("Tipo de notificador desconocido: " ++ k)) } := by
  unfold process_order
  rw [foldl_processStep_spec]
  simp

theorem attempt_isSome_of_mem (reg : PyDict Notifier) (order : Order)
    (now : String) (k : String) (h : k ∈ PyDict.keys reg) :
    (attempt reg order now k).isSome := by
  rw [PyDict.mem_keys_iff_isSome] at h
  cases hc : PyDict.get? reg k with
  | none => rw [hc] at h; simp at h
  | some n => simp [attempt, NotifierFactory.create, hc]

theorem length_filterMap_of_isSome {α β : Type} (f : α → Option β)
    (l : List α) (h : ∀ x ∈ l, (f x).isSome) :
    (l.filterMap f).length = l.length := by
  induction l with
  | nil => simp
  | cons x t ih =>
      have hx := h x (List.mem_cons_self x t)
      cases hf : f x with
      | none => rw [hf] at hx; simp at hx
      | some b =>
          rw [List.filterMap_cons, hf]
          simp only [List.length_cons]
          rw [ih (fun y hy => h y (List.mem_cons_of_mem x hy))]

/-! ## Claim theorems -/

/-- A concrete order used to exercise the notification pipeline. -/
def sampleOrder : Order :=
  { order_id := "ORD-001"
    customer := { name := "Ana García", email := "ana.garcia@email.com"
                  phone := "+34-600-123-456", device_id := "DEVICE-ABC-123" }
    total := 10 }

/-- A registry with only `"email"` and `"sms"` registered. -/
def emailSmsRegistry : PyDict Notifier :=
  PyDict.set (PyDict.set PyDict.empty "email" EmailNotifier) "sms" SMSNotifier

/-- Claim C1: `process_order` attempts each requested key in list order; each
registered key appends exactly one `NotificationRecord` to the history (in
invocation order), each unregistered key appends nothing and is reported as a
non-fatal failure line, the loop never aborts (it is a total fold over the
whole key list), and repeated keys are not deduplicated.  Concretely,
processing `["email", "bogus", "sms"]` with only `"email"` and `"sms"`
registered appends exactly two records, email then sms, with exactly one
reported failure for `"bogus"`, and `["email", "email"]` sends twice. -/
theorem C1_process_order_per_key (reg : PyDict Notifier)
    (history : List NotificationRecord) (order : Order) (keys : List String)
    (now : String) :
    ((process_order reg history order keys now).history =
        history ++ keys.filterMap (attempt reg order now)
      ∧ (process_order reg history order keys now).failures =
          (keys.filter (fun k => (PyDict.get? reg k).isNone)).map
            (fun k => "⚠️  Error: " ++
              ("Tipo de notificador desconocido: " ++ k)))
    ∧ (process_order emailSmsRegistry [] sampleOrder
        ["email", "bogus", "sms"] now).history.map NotificationRecord.type =
        ["email", "sms"]
    ∧ (process_order emailSmsRegistry [] sampleOrder
        ["email", "bogus", "sms"] now).failures =
        ["⚠️  Error: " ++ ("Tipo de notificador desconocido: " ++ "bogus")]
    ∧ (process_order emailSmsRegistry [] sampleOrder
        ["email", "email"] now).history.map NotificationRecord.type =
        ["email", "email"] := by
  refine ⟨⟨?_, ?_⟩, ?_, ?_, ?_⟩
  · rw [process_order_spec]
  · rw [process_order_spec]
  · rw [process_order_spec]
    rfl
  · rw [process_order_spec]
    rfl
  · rw [process_order_spec]
    rfl

/-- Claim C10: the facade's `send_order_notifications` always returns the
fixed success summary — status `"success"` and `total_notifications` equal to
the length of the requested channel list — regardless of the registry state
and of how many records were actually produced; the summary is identical for
any two registries, and in particular an all-unknown channel list produces an
empty history yet still reports one "notification" per requested channel. -/
theorem C10_facade_summary_ignores_failures (reg reg' : PyDict Notifier)
    (history history' : List NotificationRecord)
    (order_id name email phone device_id : String) (total : ℚ)
    (channels : List String) (now : String) :
    ((send_order_notifications reg history order_id name email phone device_id
        total channels now).summary =
      { status := "success", order_id := order_id
        channels_notified := channels
        total_notifications := channels.length }
      ∧ (send_order_notifications reg history order_id name email phone
          device_id total channels now).summary =
        (send_order_notifications reg' history' order_id name email phone
          device_id total channels now).summary)
    ∧ (send_order_notifications PyDict.empty [] "ORD-9" "n" "e" "p" "d" 1
        ["bogus", "missing"] now).result.history = []
    ∧ (send_order_notifications PyDict.empty [] "ORD-9" "n" "e" "p" "d" 1
        ["bogus", "missing"] now).summary.total_notifications = 2
    ∧ (send_order_notifications PyDict.empty [] "ORD-9" "n" "e" "p" "d" 1
        ["bogus", "missing"] now).summary.status = "success" := by
  refine ⟨⟨rfl, rfl⟩, ?_, rfl, rfl⟩
  show (process_order PyDict.empty [] _ _ now).history = []
  rw [process_order_spec]
  rfl

/-- Claim C4: after any sequence of `register` calls on a registry whose key
list is duplicate-free, `get_available_types` lists exactly the keys
registered so far, each once, in first-registration order (the starting keys
first, then the first occurrences of the newly registered keys that were not
already present); re-registering an existing key neither duplicates it nor
moves it, and a subsequent `create` of that key returns the newly registered
class. -/
theorem C4_listKeys_insertion_order (d : PyDict Notifier)
    (rs : List (String × Notifier)) (hd : (PyDict.keys d).Nodup) :
    NotifierFactory.get_available_types (registerAll d rs) =
      PyDict.keys d ++ (firstOccurrences (rs.map Prod.fst)).filter
        (fun x => decide (x ∉ PyDict.keys d))
    ∧ (NotifierFactory.get_available_types (registerAll d rs)).Nodup
    ∧ (∀ k v, k ∈ PyDict.keys d →
        NotifierFactory.get_available_types (NotifierFactory.register d k v) =
          NotifierFactory.get_available_types d)
    ∧ (∀ k v, NotifierFactory.create (NotifierFactory.register d k v) k =
        .ok v) := by
  refine ⟨?_, ?_, ?_, ?_⟩
  · exact PyDict.keys_foldl_set rs d
  · exact PyDict.nodup_keys_foldl_set rs d hd
  · intro k v hk
    exact PyDict.keys_set_of_mem d k v hk
  · intro k v
    show NotifierFactory.create (PyDict.set d k v) k = .ok v
    unfold NotifierFactory.create
    rw [PyDict.get?_set_self]

/-- Witness for C4 at a concrete registry: starting from the module-level
registrations, registering `"telegram"` (new) and re-registering `"email"`
(existing) yields the expected key list. -/
theorem C4_listKeys_insertion_order_witness :
    NotifierFactory.get_available_types
      (registerAll defaultNotifierRegistry
        [("telegram", SMSNotifier), ("email", SMSNotifier)]) =
      ["email", "sms", "push", "whatsapp", "telegram"] := by
  have h := (C4_listKeys_insertion_order defaultNotifierRegistry
    [("telegram", SMSNotifier), ("email", SMSNotifier)] (by decide)).1
  rw [h]
  rfl

/-- Claim C7: `send_all_channels` reads `get_available_types()` at call time.
Registering a new notifier under the fresh key `"telegram"` and then calling
the shortcut dispatches to `"telegram"` in addition to every previously
registered key (in registration order), leaves every previously registered
variant untouched, reports no failure, and appends exactly one record per
registered channel — one more than before the registration. -/
theorem C7_send_all_channels_live (reg : PyDict Notifier) (tg : Notifier)
    (history : List NotificationRecord)
    (order_id name email phone device_id : String) (total : ℚ) (now : String)
    (h : "telegram" ∉ PyDict.keys reg) :
    (send_all_channels (NotifierFactory.register reg "telegram" tg) history
        order_id name email phone device_id total
        now).summary.channels_notified = PyDict.keys reg ++ ["telegram"]
    ∧ (∀ k, k ∈ PyDict.keys reg →
        PyDict.get? (NotifierFactory.register reg "telegram" tg) k =
          PyDict.get? reg k)
    ∧ (send_all_channels (NotifierFactory.register reg "telegram" tg) history
        order_id name email phone device_id total now).result.failures = []
    ∧ (send_all_channels (NotifierFactory.register reg "telegram" tg) history
        order_id name email phone device_id total
        now).result.history.length =
        history.length + ((PyDict.keys reg).length + 1) := by
  have hkeys : NotifierFactory.get_available_types
      (NotifierFactory.register reg "telegram" tg) =
      PyDict.keys reg ++ ["telegram"] :=
    PyDict.keys_set_of_not_mem reg "telegram" tg h
  have hsome : ∀ k ∈ NotifierFactory.get_available_types
      (NotifierFactory.register reg "telegram" tg),
      ((PyDict.get? (NotifierFactory.register reg "telegram" tg) k).isSome) :=
    fun k hk => (PyDict.mem_keys_iff_isSome _ k).1 hk
  refine ⟨hkeys, ?_, ?_, ?_⟩
  · intro k hk
    exact PyDict.get?_set_ne reg "telegram" k tg (fun hkt => h (hkt ▸ hk))
  · show (process_order (NotifierFactory.register reg "telegram" tg) history _
      (NotifierFactory.get_available_types
        (NotifierFactory.register reg "telegram" tg)) now).failures = []
    rw [process_order_spec]
    simp only [List.map_eq_nil_iff]
    rw [List.filter_eq_nil_iff]
    intro k hk
    have := hsome k hk
    simp [Option.isNone_iff_eq_none]
    cases hq : PyDict.get? (NotifierFactory.register reg "telegram" tg) k
    · rw [hq] at this
      simp at this
    · simp [hq] at this ⊢
  · show (process_order (NotifierFactory.register reg "telegram" tg) history _
      (NotifierFactory.get_available_types
        (NotifierFactory.register reg "telegram" tg)) now).history.length =
      history.length + ((PyDict.keys reg).length + 1)
    rw [process_order_spec]
    simp only [List.length_append]
    rw [length_filterMap_of_isSome]
    · rw [hkeys]
      simp
    · intro x hx
      exact attempt_isSome_of_mem _ _ _ x hx

/-- Witness for C7: the module-level registry does not know `"telegram"`, and
after registering it the facade shortcut dispatches five channels. -/
theorem C7_send_all_channels_live_witness :
    (send_all_channels
        (NotifierFactory.register defaultNotifierRegistry "telegram"
          SMSNotifier) [] "ORD-5" "n" "e" "p" "d" 1
        "t").summary.channels_notified =
      PyDict.keys defaultNotifierRegistry ++ ["telegram"] := by
  exact (C7_send_all_channels_live defaultNotifierRegistry SMSNotifier []
    "ORD-5" "n" "e" "p" "d" 1 "t" (by decide)).1

/-- Counterexample to claim C3 as stated: `create` on an unregistered key
raises `ValueError`, and in CPython's builtin exception hierarchy
`ValueError` is not a `LookupError` (it would not be caught by
`except LookupError`).  Shown concretely for the notifier factory and the
report-generator factory at key `"bogus"` on the empty registry. -/
theorem C3_counterexample :
    NotifierFactory.create PyDict.empty "bogus" =
      .error { cls := .valueError
               msg := "Tipo de notificador desconocido: " ++ "bogus" }
    ∧ ReportGeneratorFactory.create PyDict.empty "bogus" =
      .error { cls := .valueError
               msg := "Tipo de reporte desconocido: " ++ "bogus" }
    ∧ PyExcClass.valueError.isLookupError = false :=
  ⟨rfl, rfl, rfl⟩

/-- Claim C3 (amended: the unknown-key error is a `ValueError`, not a
`LookupError`-kind error): in every strategy family, `create` on an
unregistered key fails with a `ValueError` whose message carries the unknown
key and constructs nothing (the result is exactly the error), and `create`
never fails for a registered key. -/
theorem C3_create_unknown_key_valueError (nreg : PyDict Notifier)
    (greg : PyDict ReportGenerator) (freg : PyDict OutputFormatter)
    (dreg : PyDict DeliveryMethod) (k : String) :
    (PyDict.get? nreg k = none →
      NotifierFactory.create nreg k =
        .error { cls := .valueError
                 msg := "Tipo de notificador desconocido: " ++ k })
    ∧ (∀ v, PyDict.get? nreg k = some v →
        NotifierFactory.create nreg k = .ok v)
    ∧ (PyDict.get? greg k = none →
      ReportGeneratorFactory.create greg k =
        .error { cls := .valueError
                 msg := "Tipo de reporte desconocido: " ++ k })
    ∧ (∀ v, PyDict.get? greg k = some v →
        ReportGeneratorFactory.create greg k = .ok v)
    ∧ (PyDict.get? freg k = none →
      FormatterFactory.create freg k =
        .error { cls := .valueError, msg := "Formato desconocido: " ++ k })
    ∧ (∀ v, PyDict.get? freg k = some v →
        FormatterFactory.create freg k = .ok v)
    ∧ (PyDict.get? dreg k = none →
      DeliveryFactory.create dreg k =
        .error { cls := .valueError
                 msg := "Método de entrega desconocido: " ++ k })
    ∧ (∀ v, PyDict.get? dreg k = some v →
        DeliveryFactory.create dreg k = .ok v) := by
  refine ⟨fun h => ?_, fun v h => ?_, fun h => ?_, fun v h => ?_,
    fun h => ?_, fun v h => ?_, fun h => ?_, fun v h => ?_⟩ <;>
    simp only [NotifierFactory.create, ReportGeneratorFactory.create,
      FormatterFactory.create, DeliveryFactory.create, h]

/-- Witness for C3 (amended), at the module-level registries: the unknown key
`"bogus"` yields the `ValueError`, and the registered key `"email"` yields
the registered class. -/
theorem C3_create_unknown_key_valueError_witness :
    NotifierFactory.create defaultNotifierRegistry "bogus" =
      .error { cls := .valueError
               msg := "Tipo de notificador desconocido: " ++ "bogus" }
    ∧ NotifierFactory.create defaultNotifierRegistry "email" =
      .ok EmailNotifier := by
  exact ⟨(C3_create_unknown_key_valueError defaultNotifierRegistry
      defaultGeneratorRegistry defaultFormatterRegistry
      defaultDeliveryRegistry "bogus").1 rfl,
    (C3_create_unknown_key_valueError defaultNotifierRegistry
      defaultGeneratorRegistry defaultFormatterRegistry
      defaultDeliveryRegistry "email").2.1 EmailNotifier rfl⟩

/-- Claim C9: each notification channel derives its record's `recipient` from
the channel-specific customer attribute (email → email address, sms and
whatsapp → phone, push → device id), stamps the record's `type` with its own
`get_type`, and uses the invocation time as timestamp; and in every family
every module-level registration maps a key to a variant whose reported key
equals the registration key. -/
theorem C9_notifier_recipient_and_key (order : Order) (now : String) :
    ((EmailNotifier.send order now).recipient = order.customer.email
      ∧ (EmailNotifier.send order now).type = EmailNotifier.get_type
      ∧ (EmailNotifier.send order now).timestamp = now)
    ∧ ((SMSNotifier.send order now).recipient = order.customer.phone
      ∧ (SMSNotifier.send order now).type = SMSNotifier.get_type)
    ∧ ((WhatsAppNotifier.send order now).recipient = order.customer.phone
      ∧ (WhatsAppNotifier.send order now).type = WhatsAppNotifier.get_type)
    ∧ ((PushNotifier.send order now).recipient = order.customer.device_id
      ∧ (PushNotifier.send order now).type = PushNotifier.get_type)
    ∧ List.all defaultNotifierRegistry
        (fun p => p.2.get_type == p.1) = true
    ∧ List.all defaultGeneratorRegistry
        (fun p => p.2.get_type == p.1) = true
    ∧ List.all defaultFormatterRegistry
        (fun p => p.2.get_format_type == p.1) = true
    ∧ List.all defaultDeliveryRegistry
        (fun p => p.2.get_method_type == p.1) = true :=
  ⟨⟨rfl, rfl, rfl⟩, ⟨rfl, rfl⟩, ⟨rfl, rfl⟩, ⟨rfl, rfl⟩,
    by decide, by decide, by decide, by decide⟩

/-- Claim C5: every report generator's `generate` is exactly
`_build_header + _build_body + _build_footer` in that order; the header is
the shared construction containing the variant's title and the generation
timestamp, and the footer is the fixed delimiter — both shared functions
that depend on nothing variant-specific except the title, so only the body
(and the title inside the header) differs between variants, whatever
formatter or delivery is applied afterwards. -/
theorem C5_report_template_invariant (g : ReportGenerator) (now : String)
    (data : ReportData) :
    g.generate now data =
      g.build_header now ++ g.build_body data ++ ReportGenerator.build_footer
    ∧ (∃ pre mid post, g.build_header now =
        pre ++ g.get_title ++ mid ++ now ++ post)
    ∧ g.build_header now = eq60 ++ "\n" ++ "           " ++ g.get_title ++
        "\n" ++ eq60 ++ "\n" ++ "Fecha de generación: " ++ now ++ "\n\n"
    ∧ ReportGenerator.build_footer = "\n" ++ eq60 ++ "\n" := by
  refine ⟨rfl, ⟨eq60 ++ "\n" ++ "           ",
    "\n" ++ eq60 ++ "\n" ++ "Fecha de generación: ", "\n\n", ?_⟩, ?_, rfl⟩
  · simp [ReportGenerator.build_header, String.append_assoc]
  · simp [ReportGenerator.build_header, String.append_assoc]

/-- Claim C6: the financial report body computes
`balance = income - expenses` and closes with the POSITIVO line when
`balance > 0`, the NEGATIVO line when `balance < 0`, and the NEUTRO line when
`balance = 0`; concretely, income 75000 and expenses 45000 produce a body
showing balance 30000.00 with the POSITIVO status. -/
theorem C6_financial_classification (income expenses : ℚ) :
    (income - expenses > 0 → ∃ p, FinancialReportGenerator.build_body
        { income := some income, expenses := some expenses } =
        p ++ "\n✅ Estado: POSITIVO\n")
    ∧ (income - expenses < 0 → ∃ p, FinancialReportGenerator.build_body
        { income := some income, expenses := some expenses } =
        p ++ "\n⚠️  Estado: NEGATIVO\n")
    ∧ (income - expenses = 0 → ∃ p, FinancialReportGenerator.build_body
        { income := some income, expenses := some expenses } =
        p ++ "\n➖ Estado: NEUTRO\n")
    ∧ FinancialReportGenerator.build_body
        { income := some 75000, expenses := some 45000 } =
      "Ingresos: $75000.00\n" ++ "Gastos: $45000.00\n" ++
        "Balance: $30000.00\n" ++ "\n✅ Estado: POSITIVO\n" := by
  refine ⟨fun h => ?_, fun h => ?_, fun h => ?_, ?_⟩
  · simp only [FinancialReportGenerator, Option.getD_some]
    rw [if_pos h]
    exact ⟨_, rfl⟩
  · simp only [FinancialReportGenerator, Option.getD_some]
    rw [if_neg (lt_asymm h), if_pos h]
    exact ⟨_, rfl⟩
  · simp only [FinancialReportGenerator, Option.getD_some]
    rw [if_neg (by simp [h]), if_neg (by simp [h])]
    exact ⟨_, rfl⟩
  · have hb : (75000 : ℚ) - 45000 = 30000 := by norm_num
    simp only [FinancialReportGenerator, Option.getD_some, hb]
    rw [if_pos (by norm_num : (30000 : ℚ) > 0)]
    decide

/-- Witness for C6 at concrete inputs: income 1 / expenses 0 is POSITIVO,
0 / 1 is NEGATIVO, 3 / 3 is NEUTRO. -/
theorem C6_financial_classification_witness :
    (∃ p, FinancialReportGenerator.build_body
        { income := some 1, expenses := some 0 } =
        p ++ "\n✅ Estado: POSITIVO\n")
    ∧ (∃ p, FinancialReportGenerator.build_body
        { income := some 0, expenses := some 1 } =
        p ++ "\n⚠️  Estado: NEGATIVO\n")
    ∧ (∃ p, FinancialReportGenerator.build_body
        { income := some 3, expenses := some 3 } =
        p ++ "\n➖ Estado: NEUTRO\n") :=
  ⟨(C6_financial_classification 1 0).1 (by norm_num),
    (C6_financial_classification 0 1).2.1 (by norm_num),
    (C6_financial_classification 3 3).2.2.1 (by norm_num)⟩

theorem foldl_add_amount (l : List SaleItem) (a : ℚ) :
    l.foldl (fun acc item => acc + item.amount) a =
      a + (l.map SaleItem.amount).sum := by
  induction l generalizing a with
  | nil => simp
  | cons x t ih => simp [List.foldl_cons, ih, add_assoc]

/-- Claim C8: the sales body's total is the exact sum of the items' `amount`
fields (the left fold from 0 equals the list sum, hence is invariant under
permutation of the items), the reported transaction count is the list
length, and the empty list yields total 0 and count 0, as shown by the
body's leading lines. -/
theorem C8_sales_total_exact (sales other : List SaleItem) (data : ReportData)
    (h : sales.Perm other) :
    salesTotal sales = (sales.map SaleItem.amount).sum
    ∧ salesTotal sales = salesTotal other
    ∧ salesTotal [] = (0 : ℚ)
    ∧ (∃ post, SalesReportGenerator.build_body data =
        "Total de ventas: $" ++ format2f (salesTotal (data.sales.getD [])) ++
          "\n" ++ ("Número de transacciones: " ++
            toString (data.sales.getD []).length ++ "\n") ++ post)
    ∧ SalesReportGenerator.build_body { sales := some [] } =
        "Total de ventas: $" ++ format2f 0 ++ "\n" ++
          ("Número de transacciones: " ++ toString (0 : Nat) ++ "\n") ++
          ("Periodo: " ++ "No especificado" ++ "\n\n" ++
            ("Detalle de ventas:\n" ++ dash60 ++ "\n")) := by
  have hsum : ∀ l : List SaleItem,
      salesTotal l = (l.map SaleItem.amount).sum := by
    intro l
    unfold salesTotal
    rw [foldl_add_amount]
    simp
  refine ⟨hsum sales, ?_, rfl, ?_, by decide⟩
  · rw [hsum sales, hsum other]
    exact (h.map SaleItem.amount).sum_eq
  · refine ⟨"Periodo: " ++ data.period.getD "No especificado" ++ "\n\n" ++
      "Detalle de ventas:\n" ++ dash60 ++ "\n" ++
        String.join ((data.sales.getD []).map (fun sale =>
          "  • Producto: " ++ sale.product ++ " - $" ++
            format2f sale.amount ++ "\n")), ?_⟩
    simp only [SalesReportGenerator, String.append_assoc]

/-- Witness for C8: two concrete two-item sale lists that are permutations of
one another have equal totals. -/
theorem C8_sales_total_exact_witness :
    salesTotal [{ product := "a", amount := 1 }, { product := "b", amount := 2 }] =
      salesTotal [{ product := "b", amount := 2 }, { product := "a", amount := 1 }] :=
  (C8_sales_total_exact
    [{ product := "a", amount := 1 }, { product := "b", amount := 2 }]
    [{ product := "b", amount := 2 }, { product := "a", amount := 1 }]
    ({ } : ReportData)
    (List.Perm.swap ({ product := "b", amount := 2 } : SaleItem)
      ({ product := "a", amount := 1 } : SaleItem) [])).2.1

/-- Claim C2: `generate_report` resolves all three strategies before touching
any state: if any of the three keys is unregistered the call propagates the
`ValueError` to the caller and produces no `ReportOutput` at all (so the
history is left unchanged and no partial report exists), and if all three are
registered it returns the formatted text, appends exactly one `ReportRecord`,
and invokes the delivery on the formatted content. -/
theorem C2_generate_report_all_or_nothing (genReg : PyDict ReportGenerator)
    (fmtReg : PyDict OutputFormatter) (delReg : PyDict DeliveryMethod)
    (history : List ReportRecord) (report_type : String) (data : ReportData)
    (output_format delivery_method now : String) :
    (((PyDict.get? genReg report_type).isNone
        ∨ (PyDict.get? fmtReg output_format).isNone
        ∨ (PyDict.get? delReg delivery_method).isNone) →
      ∃ e : PyExc, generate_report genReg fmtReg delReg history report_type
          data output_format delivery_method now = .error e
        ∧ e.cls = .valueError)
    ∧ (∀ generator formatter delivery,
        PyDict.get? genReg report_type = some generator →
        PyDict.get? fmtReg output_format = some formatter →
        PyDict.get? delReg delivery_method = some delivery →
        generate_report genReg fmtReg delReg history report_type data
            output_format delivery_method now =
          .ok { formatted_content :=
                  formatter.format (generator.generate now data)
                history := history ++
                  [{ report_type := report_type
                     output_format := output_format
                     delivery_method := delivery_method, timestamp := now }]
                delivery_output :=
                  delivery.deliver (formatter.format (generator.generate now
                    data)) report_type formatter.get_file_extension now }) := by
  constructor
  · intro h
    cases hg : PyDict.get? genReg report_type with
    | none =>
        refine ⟨{ cls := .valueError
                  msg := "Tipo de reporte desconocido: " ++ report_type },
          ?_, rfl⟩
        simp only [generate_report, ReportGeneratorFactory.create, hg]
    | some generator =>
        cases hf : PyDict.get? fmtReg output_format with
        | none =>
            refine ⟨{ cls := .valueError
                      msg := "Formato desconocido: " ++ output_format },
              ?_, rfl⟩
            simp only [generate_report, ReportGeneratorFactory.create,
              FormatterFactory.create, hg, hf]
        | some formatter =>
            cases hd : PyDict.get? delReg delivery_method with
            | none =>
                refine ⟨{ cls := .valueError
                          msg := "Método de entrega desconocido: " ++
                            delivery_method }, ?_, rfl⟩
                simp only [generate_report, ReportGeneratorFactory.create,
                  FormatterFactory.create, DeliveryFactory.create, hg, hf, hd]
            | some delivery =>
                rw [hg, hf, hd] at h
                simp at h
  · intro generator formatter delivery hg hf hd
    simp only [generate_report, ReportGeneratorFactory.create,
      FormatterFactory.create, DeliveryFactory.create, hg, hf, hd]

/-- Witness for C2 at the module-level registries: the unknown report type
`"bogus"` makes the whole call fail with a `ValueError`, while
`("financial", "pdf", "download")` succeeds and appends one record. -/
theorem C2_generate_report_all_or_nothing_witness :
    (∃ e : PyExc, generate_report defaultGeneratorRegistry
        defaultFormatterRegistry defaultDeliveryRegistry [] "bogus"
        ({ } : ReportData) "pdf" "email" "T" = .error e
      ∧ e.cls = .valueError)
    ∧ generate_report defaultGeneratorRegistry defaultFormatterRegistry
        defaultDeliveryRegistry [] "financial" ({ } : ReportData) "pdf"
        "download" "T" =
      .ok { formatted_content :=
              PDFFormatter.format (FinancialReportGenerator.generate "T"
                ({ } : ReportData))
            history := [{ report_type := "financial", output_format := "pdf"
                          delivery_method := "download", timestamp := "T" }]
            delivery_output :=
              DownloadDelivery.deliver (PDFFormatter.format
                (FinancialReportGenerator.generate "T" ({ } : ReportData)))
                "financial" PDFFormatter.get_file_extension "T" } :=
  ⟨(C2_generate_report_all_or_nothing defaultGeneratorRegistry
      defaultFormatterRegistry defaultDeliveryRegistry [] "bogus"
      ({ } : ReportData) "pdf" "email" "T").1 (Or.inl rfl),
    (C2_generate_report_all_or_nothing defaultGeneratorRegistry
      defaultFormatterRegistry defaultDeliveryRegistry [] "financial"
      ({ } : ReportData) "pdf" "download" "T").2 FinancialReportGenerator
      PDFFormatter DownloadDelivery rfl rfl rfl⟩
